import Mathlib

/-!
Verification development for the printer-monitor server
(`printer-monitor-api`, Node.js).  The polling pipeline (`queryPrinter`),
the alert engine (`isInCooldown` / `triggerAlert` / `checkAlerts`), the
notification gating, the scan endpoint and the alert-history storage are
embedded shallowly below; machine arithmetic of JavaScript is modelled on
`Nat` / `Int` and the relevant JavaScript string / number coercions are
modelled explicitly.  Theorems about the spec claims follow the
definitions.
-/

/-! ## JavaScript semantics helpers -/

/-- Truthiness of a nullable string (`null` and `""` are falsy). -/
def jsTruthyOpt : Option String → Bool
  | some s => s != ""
  | none => false

/-- `x || d` for a numeric config field whose falsy value is `0`. -/
def jsOrNat (x d : Nat) : Nat := if x = 0 then d else x

/-- `x || d` for a string config field whose falsy value is `""`. -/
def jsOrStr (x d : String) : String := if x = "" then d else x

/-- `x || d` for a nullable string (used for `printer.name || printer.ip`). -/
def jsOrOpt (x : Option String) (d : String) : String :=
  match x with
  | some s => if s = "" then d else s
  | none => d

/-- Numeric value of a list of decimal digit characters. -/
def digitsVal (ds : List Char) : Nat :=
  ds.foldl (fun acc c => acc * 10 + (c.toNat - '0'.toNat)) 0

/-- Model of `parseInt(s)` (radix 10): skip leading whitespace, optional
sign, then the longest prefix of decimal digits; `none` models `NaN`. -/
def jsParseInt (s : String) : Option Int :=
  let cs := s.data.dropWhile Char.isWhitespace
  let signAndRest : Int × List Char :=
    match cs with
    | '-' :: t => (-1, t)
    | '+' :: t => (1, t)
    | t => (1, t)
  let ds := signAndRest.2.takeWhile Char.isDigit
  if ds.isEmpty then none
  else some (signAndRest.1 * (digitsVal ds : Int))

/-- Matches the digit run part of a JavaScript numeric literal:
digits, or digits dot digits-or-empty, or dot digits. -/
def numericBody (cs : List Char) : Bool :=
  let intPart := cs.takeWhile Char.isDigit
  let rest := cs.dropWhile Char.isDigit
  match intPart, rest with
  | _ :: _, [] => true
  | _ :: _, '.' :: frac => frac.all Char.isDigit
  | [], '.' :: frac => !frac.isEmpty && frac.all Char.isDigit
  | _, _ => false

/-- Model of `!isNaN(s)` for a string, i.e. whether `Number(s)` is not
`NaN`: trimmed empty coerces to `0`; otherwise an optionally signed
decimal literal is required (exponents and hex are outside the model). -/
def jsIsNumeric (s : String) : Bool :=
  let cs := s.data.dropWhile Char.isWhitespace |>.reverse.dropWhile Char.isWhitespace |>.reverse
  match cs with
  | [] => true
  | '-' :: t => numericBody t
  | '+' :: t => numericBody t
  | t => numericBody t

/-- Lexicographic order on character lists (JavaScript string `<=` for
the ASCII strings compared by the code, such as `"HH:MM"` times). -/
def charListLe : List Char → List Char → Bool
  | [], _ => true
  | _ :: _, [] => false
  | a :: as, b :: bs => if a = b then charListLe as bs else decide (a < b)

/-- JavaScript string comparison `a <= b`. -/
def strLe (a b : String) : Bool := charListLe a.data b.data

/-- Whether `sub` occurs as a contiguous run inside `hay`. -/
def listHasInfix (sub : List Char) : List Char → Bool
  | [] => sub.isEmpty
  | h :: t => sub.isPrefixOf (h :: t) || listHasInfix sub t

/-- Model of `hay.includes(sub)`. -/
def strIncludes (hay sub : String) : Bool := listHasInfix sub.data hay.data

/-- Model of `s.toLowerCase()` (ASCII). -/
def strToLower (s : String) : String := String.mk (s.data.map Char.toLower)

/-- Model of `s.trim()`: strip leading and trailing whitespace. -/
def strTrim (s : String) : String :=
  String.mk (s.data.dropWhile Char.isWhitespace |>.reverse.dropWhile Char.isWhitespace |>.reverse)

/-- Whether the string matches `/^\d+$/` (non-empty, all digits). -/
def isAllDigits (s : String) : Bool := !s.data.isEmpty && s.data.all Char.isDigit

/-- Whether the string matches `/^\d+(\.\d+)?$/`. -/
def isDecimalNumberStr (s : String) : Bool :=
  let intPart := s.data.takeWhile Char.isDigit
  let rest := s.data.dropWhile Char.isDigit
  match intPart, rest with
  | _ :: _, [] => true
  | _ :: _, '.' :: frac => !frac.isEmpty && frac.all Char.isDigit
  | _, _ => false

/-- Whether the string matches `/^-?\d+$/`. -/
def isSignedIntStr (s : String) : Bool :=
  match s.data with
  | '-' :: t => !t.isEmpty && t.all Char.isDigit
  | t => !t.isEmpty && t.all Char.isDigit

/-- Whether a character falls in the control ranges
`\x00`-`\x1F` or `\x7F`-`\x9F`. -/
def isControlChar (c : Char) : Bool :=
  c.toNat ≤ 0x1F || (0x7F ≤ c.toNat && c.toNat ≤ 0x9F)

/-- Model of `Math.round(num / den)` for `den > 0`:
`⌊num/den + 1/2⌋ = ⌊(2*num + den) / (2*den)⌋`. -/
def jsRoundDiv (num den : Int) : Int := Int.fdiv (2 * num + den) (2 * den)

/-- `Math.round(num / den)` on non-negative naturals. -/
def jsRoundDivNat (num den : Nat) : Nat := (2 * num + den) / (2 * den)

/-- Model of `s.substring(0, 50)`. -/
def substring50 (s : String) : String := String.mk (s.data.take 50)

/-! ## Association maps (JavaScript `Map` keyed by strings,
insertion order preserved) -/

/-- `m.has(k)`. -/
def aHas {α : Type} (m : List (String × α)) (k : String) : Bool :=
  m.any (fun p => p.1 == k)

/-- `m.get(k)` as an option. -/
def aFind {α : Type} (m : List (String × α)) (k : String) : Option α :=
  (m.find? (fun p => p.1 == k)).map (fun p => p.2)

/-- `m.get(k)` with a default. -/
def aGetD {α : Type} (m : List (String × α)) (k : String) (d : α) : α :=
  (aFind m k).getD d

/-- `m.set(k, v)`: overwrite in place, else append. -/
def aSet {α : Type} (m : List (String × α)) (k : String) (v : α) : List (String × α) :=
  if aHas m k then m.map (fun p => if p.1 == k then (k, v) else p)
  else m ++ [(k, v)]

/-- `m.delete(k)`. -/
def aDel {α : Type} (m : List (String × α)) (k : String) : List (String × α) :=
  m.filter (fun p => p.1 != k)

/-- The last `n` elements of a list, in order (`slice(-n)`). -/
def takeLast {α : Type} (n : Nat) (l : List α) : List α :=
  (l.reverse.take n).reverse

/-! ## Device snapshot data model (`queryPrinter` result record) -/

structure Supply where
  name : String
  current : Int
  max : Int
  type : String
deriving DecidableEq

structure Tray where
  name : String
  maxCapacity : Option Int
  currentLevel : Option Int
  status : String
  mediaName : Option String
  capacityStatus : Option String
deriving DecidableEq

structure DeviceError where
  severity : String
  description : String
  timestamp : String
deriving DecidableEq

structure NetworkIdent where
  sysName : Option String
  sysLocation : Option String
  sysContact : Option String
deriving DecidableEq

/-- The canonical device record built by `queryPrinter`.  `totalPages`
is an `Option Int` whose `none` models the JavaScript `NaN`. -/
structure Printer where
  ip : String
  name : Option String
  model : Option String
  serial : Option String
  status : String
  totalPages : Option Int
  supplies : List Supply
  trays : List Tray
  errors : List DeviceError
  network : NetworkIdent
  lastUpdate : String
  online : Bool
deriving DecidableEq

/-- The SNMP responses one polling round can observe for one device:
each `snmpGet` resolves to `none` on error or timeout, and each
`snmpWalk` resolves to a list of stringified values. -/
structure SnmpEnv where
  description : Option String
  serial : Option String
  serialAlt1 : Option String
  serialAlt2 : Option String
  deviceStatus : Option String
  statusAlt1 : Option String
  totalPages : Option String
  totalPagesAlt1 : Option String
  totalPagesAlt2 : Option String
  totalPagesAlt3 : Option String
  totalPagesAlt4 : Option String
  totalPagesAlt5 : Option String
  totalPagesAlt6 : Option String
  sysName : Option String
  sysLocation : Option String
  sysContact : Option String
  supplyNames : List String
  supplyMax : List String
  supplyCurrent : List String
  trayNames : List String
  trayMaxCapacity : List String
  trayCurrentLevel : List String
  trayStatus : List String
  trayMediaName : List String
  alertSeverities : List String
  alertDescriptions : List String
deriving DecidableEq

/-- An `SnmpEnv` with every query absent and every walk empty. -/
def SnmpEnv.empty : SnmpEnv :=
  { description := none, serial := none, serialAlt1 := none, serialAlt2 := none,
    deviceStatus := none, statusAlt1 := none,
    totalPages := none, totalPagesAlt1 := none, totalPagesAlt2 := none,
    totalPagesAlt3 := none, totalPagesAlt4 := none, totalPagesAlt5 := none,
    totalPagesAlt6 := none,
    sysName := none, sysLocation := none, sysContact := none,
    supplyNames := [], supplyMax := [], supplyCurrent := [],
    trayNames := [], trayMaxCapacity := [], trayCurrentLevel := [],
    trayStatus := [], trayMediaName := [],
    alertSeverities := [], alertDescriptions := [] }

/-- The `DEVICE_STATUS` code table. -/
def DEVICE_STATUS : Option Int → Option String
  | some 1 => some "other"
  | some 2 => some "unknown"
  | some 3 => some "idle"
  | some 4 => some "printing"
  | some 5 => some "warmup"
  | some 6 => some "waiting"
  | _ => none

/-- The `TRAY_STATUS` code table. -/
def TRAY_STATUS : Option Int → Option String
  | some 0 => some "unknown"
  | some 1 => some "available"
  | some 2 => some "unavailable"
  | some 3 => some "empty"
  | some 4 => some "paper-jam"
  | some 5 => some "tray-missing"
  | _ => none

/-- The `ALERT_SEVERITY` code table. -/
def ALERT_SEVERITY : Option Int → Option String
  | some 1 => some "other"
  | some 2 => some "critical"
  | some 3 => some "warning"
  | some 4 => some "info"
  | _ => none

/-! ## OID fallback chains (`queryPrinter` serial / status / pages) -/

/-- One step of a JavaScript fallback chain
`if (!valid(cur)) cur = next;`. -/
def jsChainStep (valid : Option String → Bool) (cur next : Option String) : Option String :=
  if valid cur then cur else next

/-- A whole fallback chain starting from the first candidate. -/
def jsChain (valid : Option String → Bool) (first : Option String)
    (alts : List (Option String)) : Option String :=
  alts.foldl (jsChainStep valid) first

/-- Validity used by the page-count chain:
`pages && !isNaN(pages)`. -/
def pageValid (o : Option String) : Bool :=
  jsTruthyOpt o && jsIsNumeric (o.getD "")

/-- The serial-number resolution of `queryPrinter`: try `serial`,
`serialAlt1`, `serialAlt2`, falling through on falsy responses, and
keep the final value only if truthy (else the field stays `null`). -/
def serialFieldOf (env : SnmpEnv) : Option String :=
  let v := jsChain jsTruthyOpt env.serial [env.serialAlt1, env.serialAlt2]
  if jsTruthyOpt v then v else none

/-- The status resolution of `queryPrinter`: try `deviceStatus` then
`statusAlt1`, falling through only on falsy responses; the final value
is mapped through `DEVICE_STATUS` when numeric, else the field keeps
its initial value `"unknown"`. -/
def statusFieldOf (env : SnmpEnv) : String :=
  let v := jsChain jsTruthyOpt env.deviceStatus [env.statusAlt1]
  if jsTruthyOpt v && jsIsNumeric (v.getD "") then
    (DEVICE_STATUS (jsParseInt (v.getD ""))).getD "unknown"
  else "unknown"

/-- The page-count resolution of `queryPrinter`: try the seven
candidates, falling through whenever the current value is falsy or
non-numeric; the final value is `parseInt`-ed when valid, else the
field keeps its initial value `0`. -/
def totalPagesFieldOf (env : SnmpEnv) : Option Int :=
  let v := jsChain pageValid env.totalPages
    [env.totalPagesAlt1, env.totalPagesAlt2, env.totalPagesAlt3,
     env.totalPagesAlt4, env.totalPagesAlt5, env.totalPagesAlt6]
  if pageValid v then jsParseInt (v.getD "") else some 0

/-! ## Supply table processing -/

/-- Supply type classification of `queryPrinter` on the lowercased
trimmed name, in source order. -/
def classifySupplyType (nameLower : String) : String :=
  if strIncludes nameLower "toner" || strIncludes nameLower "ink"
      || strIncludes nameLower "cartridge" then
    if strIncludes nameLower "waste" then "waste" else "toner"
  else if strIncludes nameLower "drum" then "drum"
  else if strIncludes nameLower "fuser" || strIncludes nameLower "fixing" then "fuser"
  else if strIncludes nameLower "belt" || strIncludes nameLower "transfer" then "transfer"
  else if strIncludes nameLower "maintenance" || strIncludes nameLower "kit" then "maintenance"
  else "other"

/-- Processing of one supply-table row (the body of the supply loop of
`queryPrinter`); `none` means the row is skipped. -/
def supplyRow (nameRaw maxRaw curRaw : String) : Option Supply :=
  let maxVal := jsParseInt maxRaw
  let currentVal := jsParseInt curRaw
  let nameLower := strTrim (strToLower nameRaw)
  match maxVal, currentVal with
  | some m, some c =>
    if m > 0 && nameRaw != "" then
      if isAllDigits (strTrim nameRaw) || (strTrim nameRaw).length < 3 then none
      else
        let ty := classifySupplyType nameLower
        if ty != "other" then
          some { name := strTrim nameRaw, current := c, max := m, type := ty }
        else none
    else none
  | _, _ => none

/-- The supply list of a snapshot: the three parallel walks are zipped
by index, truncated to the shortest (an index past any walk end is
skipped; the source guard requiring all three walks non-empty is
subsumed by the truncation). -/
def suppliesOf (names maxs curs : List String) : List Supply :=
  (List.range names.length).filterMap (fun i =>
    if i < maxs.length && i < curs.length then
      supplyRow (names.getD i "") (maxs.getD i "") (curs.getD i "")
    else none)

/-! ## Tray table processing -/

/-- The tray keyword requirement of `queryPrinter`. -/
def hasTrayKeyword (nameLower : String) : Bool :=
  strIncludes nameLower "tray" || strIncludes nameLower "drawer"
    || strIncludes nameLower "cassette" || strIncludes nameLower "bypass"
    || strIncludes nameLower "manual feed" || strIncludes nameLower "multi-purpose"
    || strIncludes nameLower "multipurpose" || strIncludes nameLower "mpt"

/-- Processing of one tray-table row given the already accumulated
trays (for duplicate suppression); `none` means the row is skipped. -/
def trayRow (acc : List Tray) (nameRaw : String)
    (maxCapacity currentLevel statusCode : Option Int)
    (mediaName : Option String) : Option Tray :=
  let nameLower := strTrim (strToLower nameRaw)
  if nameRaw == "" || (strTrim nameRaw).length < 3 || isDecimalNumberStr (strTrim nameRaw) then none
  else if nameRaw.data.any isControlChar then none
  else if !hasTrayKeyword nameLower then none
  else if acc.any (fun t => strToLower t.name == strToLower (strTrim nameRaw)) then none
  else
    let finalMaxCapacity := match maxCapacity with
      | some m => if m > 0 then some m else none
      | none => none
    let levelAndStatus : Option Int × Option String :=
      match currentLevel with
      | some c =>
        if c > 0 then (some c, none)
        else if c = -1 then (none, some "has-paper")
        else if c = -3 then (none, some "has-paper")
        else if c = 0 then (none, some "empty")
        else (none, none)
      | none => (none, none)
    some { name := strTrim nameRaw,
           maxCapacity := finalMaxCapacity,
           currentLevel := levelAndStatus.1,
           status := (TRAY_STATUS statusCode).getD "unknown",
           mediaName := match mediaName with
             | some m => if m != "" && !isSignedIntStr m then some m else none
             | none => none,
           capacityStatus := levelAndStatus.2 }

/-- The tray list of a snapshot: a fold over the name-walk indices, the
other walks contributing sentinel defaults when shorter
(`-1` for capacities, `0` for status, `null` for media). -/
def traysOf (names maxs curs stats medias : List String) : List Tray :=
  (List.range names.length).foldl (fun acc i =>
    let maxCapacity := if i < maxs.length then jsParseInt (maxs.getD i "") else some (-1)
    let currentLevel := if i < curs.length then jsParseInt (curs.getD i "") else some (-1)
    let statusCode := if i < stats.length then jsParseInt (stats.getD i "") else some 0
    let mediaName := if i < medias.length then some (medias.getD i "") else none
    match trayRow acc (names.getD i "") maxCapacity currentLevel statusCode mediaName with
    | some t => acc ++ [t]
    | none => acc) []

/-! ## Alert (error) table processing -/

/-- The device error list of a snapshot: severity codes 2 (critical)
and 3 (warning) are kept, everything else is dropped. -/
def errorsOf (sevs descs : List String) (nowIso : String) : List DeviceError :=
  (List.range sevs.length).filterMap (fun i =>
    let sevCode := jsParseInt (sevs.getD i "")
    let description := if i < descs.length then descs.getD i "" else "Unknown alert"
    if sevCode == some 2 || sevCode == some 3 then
      some { severity := (ALERT_SEVERITY sevCode).getD "unknown",
             description := description,
             timestamp := nowIso }
    else none)

/-! ## The poller -/

/-- The fresh record `queryPrinter` starts from. -/
def initialPrinterData (ip nowIso : String) : Printer :=
  { ip := ip, name := none, model := none, serial := none,
    status := "unknown", totalPages := some 0,
    supplies := [], trays := [], errors := [],
    network := { sysName := none, sysLocation := none, sysContact := none },
    lastUpdate := nowIso, online := false }

/-- Model of `queryPrinter(ip, community)` as a function of the SNMP
responses: if the anchor query (system description) is falsy the fresh
record is returned with `status := "offline"` and no further OID is
used; otherwise every field is populated from the environment. -/
def queryPrinter (env : SnmpEnv) (ip nowIso : String) : Printer :=
  let pd := initialPrinterData ip nowIso
  if jsTruthyOpt env.description then
    let desc := env.description.getD ""
    { pd with
      online := true,
      name := some (substring50 desc),
      model := some (substring50 desc),
      serial := serialFieldOf env,
      status := statusFieldOf env,
      totalPages := totalPagesFieldOf env,
      network :=
        { sysName := if jsTruthyOpt env.sysName then env.sysName else none,
          sysLocation := if jsTruthyOpt env.sysLocation then env.sysLocation else none,
          sysContact := if jsTruthyOpt env.sysContact then env.sysContact else none },
      supplies := suppliesOf env.supplyNames env.supplyMax env.supplyCurrent,
      trays := traysOf env.trayNames env.trayMaxCapacity env.trayCurrentLevel
        env.trayStatus env.trayMediaName,
      errors := errorsOf env.alertSeverities env.alertDescriptions nowIso }
  else
    { pd with status := "offline" }

/-! ## Configuration -/

structure Webhook where
  enabled : Bool
  url : String
  name : String
deriving DecidableEq

/-- The decision-relevant part of the email configuration (transport
settings such as port and TLS are boundary mechanics). -/
structure EmailConfig where
  enabled : Bool
  host : String
  user : String
  pass : String
  recipients : List String
deriving DecidableEq

/-- `config.alerts`.  `notifyDays := none` models an absent field
(the code substitutes the weekday list); an explicitly empty array is
`some []` (truthy in JavaScript, so no substitution happens). -/
structure AlertsConfig where
  enabled : Bool
  lowSupplyThreshold : Int
  criticalSupplyThreshold : Int
  offlineMinutes : Nat
  cooldownHours : Nat
  notifySchedule : String
  notifyTime : String
  notifyEndTime : String
  notifyDays : Option (List Nat)
deriving DecidableEq

structure Config where
  email : EmailConfig
  webhooks : List Webhook
  alerts : AlertsConfig
deriving DecidableEq

/-- The wall-clock facts one evaluation observes: `Date.now()` in
milliseconds, `toISOString()`, `getDay()` and the `"HH:MM"` slice of
`toTimeString()`. -/
structure Clock where
  nowMs : Nat
  iso : String
  day : Nat
  hhmm : String
deriving DecidableEq

/-! ## Alert events and engine state -/

structure AlertDetails where
  percentage : Option Int
  lastSeen : Option String
  downtime : Option String
  message : Option String
deriving DecidableEq

def AlertDetails.none0 : AlertDetails :=
  { percentage := none, lastSeen := none, downtime := none, message := none }

structure AlertEvent where
  id : String
  type : String
  printerIp : String
  printerName : String
  supplyName : Option String
  subject : String
  message : String
  details : AlertDetails
  timestamp : String
  acknowledged : Bool
  acknowledgedAt : Option String
  acknowledgedBy : Option String
deriving DecidableEq

/-- The mutable state the alert engine touches: the in-memory cooldown
and offline-timestamp maps, the persisted alert history, and logs of
the notification transports that would be invoked (an entry is
appended exactly when the code reaches the corresponding network
send). -/
structure SysState where
  cooldowns : List (String × Nat)
  offlineTimestamps : List (String × Nat)
  storedAlerts : List AlertEvent
  emailLog : List (String × String × String)
  webhookLog : List (String × String × String)
deriving DecidableEq

def SysState.empty : SysState :=
  { cooldowns := [], offlineTimestamps := [], storedAlerts := [],
    emailLog := [], webhookLog := [] }

/-! ## Cooldown bookkeeping -/

/-- The cooldown key: `ip-type-supplyName` when a truthy supply name is
given, else `ip-type`. -/
def cooldownKey (ip ty : String) (supplyName : Option String) : String :=
  if jsTruthyOpt supplyName then ip ++ "-" ++ ty ++ "-" ++ supplyName.getD ""
  else ip ++ "-" ++ ty

/-- `(config.alerts.cooldownHours || 4) * 60 * 60 * 1000`. -/
def cooldownMsOf (cfg : AlertsConfig) : Nat :=
  jsOrNat cfg.cooldownHours 4 * 60 * 60 * 1000

/-- `isInCooldown(cooldownKey)`. -/
def isInCooldown (cfg : AlertsConfig) (cooldowns : List (String × Nat))
    (now : Nat) (key : String) : Bool :=
  if !aHas cooldowns key then false
  else decide (now - aGetD cooldowns key 0 < cooldownMsOf cfg)

/-! ## Notification gating -/

/-- `isWithinNotificationSchedule()`. -/
def isWithinNotificationSchedule (cfg : AlertsConfig) (clock : Clock) : Bool :=
  let schedule := jsOrStr cfg.notifySchedule "always"
  if schedule == "always" then true
  else
    let startTime := jsOrStr cfg.notifyTime "08:00"
    let endTime := jsOrStr cfg.notifyEndTime "18:00"
    let isWithinTime := strLe startTime clock.hhmm && strLe clock.hhmm endTime
    if schedule == "business-hours" then
      (decide (1 ≤ clock.day) && decide (clock.day ≤ 5)) && isWithinTime
    else if schedule == "scheduled" then
      ((cfg.notifyDays.getD [1, 2, 3, 4, 5]).contains clock.day) && isWithinTime
    else true

/-- The decision part of `sendEmailNotification`: whether the function
reaches the SMTP transport (the transport itself and its own failures
are boundary mechanics).  Checked in source order: `email.enabled`,
the notification schedule (skipped for reports), the SMTP settings,
and at least one recipient containing an at sign. -/
def sendEmailNotificationAttempt (cfg : Config) (clock : Clock) (alertType : String) : Bool :=
  cfg.email.enabled
    && (alertType == "report" || isWithinNotificationSchedule cfg.alerts clock)
    && cfg.email.host != "" && cfg.email.user != "" && cfg.email.pass != ""
    && !(cfg.email.recipients.filter (fun r => r != "" && r.data.contains '@')).isEmpty

/-- The webhooks `sendWebhookNotification` posts to: the enabled ones
with a truthy URL.  There is no schedule check in this path. -/
def sendWebhookTargets (cfg : Config) : List Webhook :=
  cfg.webhooks.filter (fun wh => wh.enabled && wh.url != "")

/-! ## Alert creation -/

/-- The subject and message built by the `switch` in `triggerAlert`
(string interpolation of a missing value prints `undefined`, of a
`null` supply name prints `null`). -/
def alertText (ty printerIp printerName : String) (supplyName : Option String)
    (details : AlertDetails) : String × String :=
  let pct := match details.percentage with
    | some p => toString p
    | none => "undefined"
  let supply := supplyName.getD "null"
  if ty == "critical-supply" then
    ("Critical: " ++ printerName ++ " - " ++ supply ++ " at " ++ pct ++ "%",
     "The " ++ supply ++ " on printer \"" ++ printerName ++ "\" (" ++ printerIp
       ++ ") has reached a critical level of " ++ pct
       ++ "%. Immediate replacement recommended.")
  else if ty == "low-supply" then
    ("Low Supply: " ++ printerName ++ " - " ++ supply ++ " at " ++ pct ++ "%",
     "The " ++ supply ++ " on printer \"" ++ printerName ++ "\" (" ++ printerIp
       ++ ") is running low at " ++ pct ++ "%. Consider ordering replacement supplies.")
  else if ty == "offline" then
    ("Offline: " ++ printerName,
     "Printer \"" ++ printerName ++ "\" (" ++ printerIp
       ++ ") has gone offline. Last seen: " ++ (jsOrOpt details.lastSeen "Unknown"))
  else if ty == "back-online" then
    ("Back Online: " ++ printerName,
     "Printer \"" ++ printerName ++ "\" (" ++ printerIp
       ++ ") is back online after being offline for "
       ++ (jsOrOpt details.downtime "some time") ++ ".")
  else
    ("Alert: " ++ printerName, jsOrOpt details.message "An alert was triggered.")

/-- `storage.saveAlertHistory`: what a save persists — the list trimmed
to the most recent 1000 entries (`alerts.slice(-1000)`). -/
def saveAlertHistory (alerts : List AlertEvent) : List AlertEvent :=
  takeLast 1000 alerts

/-- `storage.addAlert`: the stored history becomes the previous one
plus the new event, as trimmed by the save. -/
def addAlert (stored : List AlertEvent) (ev : AlertEvent) : List AlertEvent :=
  saveAlertHistory (stored ++ [ev])

/-- The full event record persisted by `storage.addAlert` for a
trigger (fresh id from the clock, not yet acknowledged). -/
def mkAlertEvent (clock : Clock) (ty printerIp printerName : String)
    (supplyName : Option String) (details : AlertDetails) : AlertEvent :=
  { id := toString clock.nowMs, type := ty, printerIp := printerIp,
    printerName := printerName, supplyName := supplyName,
    subject := (alertText ty printerIp printerName supplyName details).1,
    message := (alertText ty printerIp printerName supplyName details).2,
    details := details, timestamp := clock.iso, acknowledged := false,
    acknowledgedAt := none, acknowledgedBy := none }

/-- `triggerAlert(type, printerIp, printerName, supplyName, details)`:
suppressed entirely when the cooldown key is active; otherwise the
event is stored, the cooldown timestamp is set to now, and (when
alerts are enabled) the email and webhook notifications are issued. -/
def triggerAlert (cfg : Config) (clock : Clock) (st : SysState)
    (ty printerIp printerName : String) (supplyName : Option String)
    (details : AlertDetails) : SysState × Option AlertEvent :=
  let key := cooldownKey printerIp ty supplyName
  if isInCooldown cfg.alerts st.cooldowns clock.nowMs key then (st, none)
  else
    let txt := alertText ty printerIp printerName supplyName details
    let ev : AlertEvent := mkAlertEvent clock ty printerIp printerName supplyName details
    let st1 : SysState :=
      { st with
        storedAlerts := addAlert st.storedAlerts ev,
        cooldowns := aSet st.cooldowns key clock.nowMs,
        emailLog :=
          if cfg.alerts.enabled && sendEmailNotificationAttempt cfg clock ty then
            st.emailLog ++ [(txt.1, txt.2, ty)]
          else st.emailLog,
        webhookLog :=
          if cfg.alerts.enabled then
            st.webhookLog ++ (sendWebhookTargets cfg).map (fun wh => (wh.name, txt.1, ty))
          else st.webhookLog }
    (st1, some ev)

/-! ## Per-poll alert evaluation -/

/-- Percentage used by the supply-threshold branch of `checkAlerts`:
`supply.max > 0 ? Math.round(current/max*100) : 100`. -/
def supplyPercentage (s : Supply) : Int :=
  if s.max > 0 then jsRoundDiv (100 * s.current) s.max else 100

/-- The supply-threshold decision of `checkAlerts` for one supply:
which alert type would be triggered (before cooldown), in source
order: percentage, the toner/ink requirement, the drum/fuser
exclusion, then the two threshold windows. -/
def supplyAlertKind (cfg : AlertsConfig) (s : Supply) : Option String :=
  let percentage := supplyPercentage s
  let supplyName := strToLower s.name
  if !(strIncludes supplyName "toner" || strIncludes supplyName "ink") then none
  else if strIncludes supplyName "drum" || strIncludes supplyName "fuser" then none
  else if percentage ≥ 0 && percentage < cfg.criticalSupplyThreshold then
    some "critical-supply"
  else if percentage ≥ cfg.criticalSupplyThreshold
      && percentage < cfg.lowSupplyThreshold then
    some "low-supply"
  else none

/-- The downtime text of the back-online alert. -/
def downtimeText (downtime : Nat) : String :=
  if downtime > 3600000 then toString (jsRoundDivNat downtime 3600000) ++ " hours"
  else toString (jsRoundDivNat downtime 60000) ++ " minutes"

/-- The body of the `checkAlerts` loop for one printer. -/
def checkAlertsPrinter (cfg : Config) (clock : Clock) (st : SysState)
    (p : Printer) : SysState :=
  if !p.online || p.status == "offline" then
    let offline1 :=
      if aHas st.offlineTimestamps p.ip then st.offlineTimestamps
      else aSet st.offlineTimestamps p.ip clock.nowMs
    let st1 := { st with offlineTimestamps := offline1 }
    let offlineDuration := clock.nowMs - aGetD offline1 p.ip 0
    let offlineThresholdMs := jsOrNat cfg.alerts.offlineMinutes 5 * 60 * 1000
    if offlineDuration ≥ offlineThresholdMs then
      (triggerAlert cfg clock st1 "offline" p.ip (jsOrOpt p.name p.ip) none
        { AlertDetails.none0 with lastSeen := some p.lastUpdate }).1
    else st1
  else
    let st1 :=
      if aHas st.offlineTimestamps p.ip then
        let downtime := clock.nowMs - aGetD st.offlineTimestamps p.ip 0
        let st2 := (triggerAlert cfg clock st "back-online" p.ip (jsOrOpt p.name p.ip)
          none { AlertDetails.none0 with downtime := some (downtimeText downtime) }).1
        { st2 with offlineTimestamps := aDel st2.offlineTimestamps p.ip }
      else st
    p.supplies.foldl (fun acc s =>
      match supplyAlertKind cfg.alerts s with
      | some k => (triggerAlert cfg clock acc k p.ip (jsOrOpt p.name p.ip)
          (some s.name) { AlertDetails.none0 with percentage := some (supplyPercentage s) }).1
      | none => acc) st1

/-- `checkAlerts()`: a no-op when alerts are disabled, else the loop
over the registered printers. -/
def checkAlerts (cfg : Config) (clock : Clock) (printerList : List Printer)
    (st : SysState) : SysState :=
  if !cfg.alerts.enabled then st
  else printerList.foldl (checkAlertsPrinter cfg clock) st

/-! ## Acknowledge endpoint -/

/-- Replace the first event with the given id. -/
def replaceFirstAlert : List AlertEvent → String → AlertEvent → List AlertEvent
  | [], _, _ => []
  | b :: t, id, a => if b.id == id then a :: t else b :: replaceFirstAlert t id a

/-- `storage.acknowledgeAlert(alertId, acknowledgedBy)`: find the first
event with the id, mark it acknowledged, persist (the save trims to
the last 1000), and return the updated event. -/
def acknowledgeAlert (stored : List AlertEvent) (alertId acknowledgedBy iso : String) :
    Option AlertEvent × List AlertEvent :=
  match stored.find? (fun a => a.id == alertId) with
  | none => (none, stored)
  | some a =>
    let a1 := { a with acknowledged := true, acknowledgedAt := some iso,
                       acknowledgedBy := some acknowledgedBy }
    (some a1, takeLast 1000 (replaceFirstAlert stored alertId a1))

/-- The `POST /api/alerts/:id/acknowledge` handler: acknowledge in
storage; when the event was found, clear the cooldown key rebuilt from
its address, type and optional supply name. -/
def postAcknowledge (st : SysState) (alertId acknowledgedBy iso : String) :
    SysState × Option AlertEvent :=
  match acknowledgeAlert st.storedAlerts alertId acknowledgedBy iso with
  | (none, _) => (st, none)
  | (some a, stored1) =>
    ({ st with storedAlerts := stored1,
               cooldowns := aDel st.cooldowns (cooldownKey a.printerIp a.type a.supplyName) },
     some a)

/-! ## Scan endpoint -/

structure ScanStatus where
  scanning : Bool
  lastScan : Option String
deriving DecidableEq

/-- The `POST /api/scan` handler: an in-flight scan makes the request
answer 409 without touching the status; otherwise `scanNetworkRange`
starts in the background (its first action sets `scanning := true`)
and the request answers 200. -/
def postScan (st : ScanStatus) : ScanStatus × Nat :=
  if st.scanning then (st, 409)
  else ({ st with scanning := true }, 200)

/-! ## Registry refresh -/

/-- One device refresh of the background auto-refresh loop (also the
body of the manual refresh endpoints): the registry entry is replaced
by the freshly queried snapshot. -/
def refreshDevice (printerMap : List (String × Printer)) (ip : String)
    (env : SnmpEnv) (nowIso : String) : List (String × Printer) :=
  aSet printerMap ip (queryPrinter env ip nowIso)

/-! ## Spec-side resolver definitions (for the refinement claims) -/

/-- The first candidate a validity predicate accepts, in order. -/
def specFirstValid (valid : Option String → Bool) : List (Option String) → Option String
  | [] => none
  | c :: rest => if valid c then c else specFirstValid valid rest

/-- Written from the spec wording for string fields: the resolver
returns the first non-empty response, absent otherwise. -/
def specResolveString (candidates : List (Option String)) : Option String :=
  specFirstValid jsTruthyOpt candidates

/-- Written from the claim wording for the status field: the resolver
is said to fall through to later candidates whenever a response does
not parse as an integer, using the first syntactically valid one. -/
def specStatusFieldClaim (env : SnmpEnv) : String :=
  match specFirstValid pageValid [env.deviceStatus, env.statusAlt1] with
  | some s => (DEVICE_STATUS (jsParseInt s)).getD "unknown"
  | none => "unknown"

/-- Written from the claim wording of C5 as stated: percentage guarded
to `0` when `max ≤ 0`, only toner/ink names without drum/fuser
evaluated, `[0, critical)` fires critical and `[critical, low)` fires
low. -/
def specSupplyAlertStated (cfg : AlertsConfig) (s : Supply) : Option String :=
  let nameL := strToLower s.name
  let evaluated := (strIncludes nameL "toner" || strIncludes nameL "ink")
    && !(strIncludes nameL "drum") && !(strIncludes nameL "fuser")
  let p : Int := if s.max ≤ 0 then 0 else jsRoundDiv (100 * s.current) s.max
  if !evaluated then none
  else if 0 ≤ p ∧ p < cfg.criticalSupplyThreshold then some "critical-supply"
  else if cfg.criticalSupplyThreshold ≤ p ∧ p < cfg.lowSupplyThreshold then some "low-supply"
  else none

/-- The amended wording of C5: identical to `specSupplyAlertStated`
except that the guarded percentage for `max ≤ 0` is `100` (so such a
supply never alerts). -/
def specSupplyAlertAmended (cfg : AlertsConfig) (s : Supply) : Option String :=
  let nameL := strToLower s.name
  let evaluated := (strIncludes nameL "toner" || strIncludes nameL "ink")
    && !(strIncludes nameL "drum") && !(strIncludes nameL "fuser")
  let p : Int := if s.max ≤ 0 then 100 else jsRoundDiv (100 * s.current) s.max
  if !evaluated then none
  else if 0 ≤ p ∧ p < cfg.criticalSupplyThreshold then some "critical-supply"
  else if cfg.criticalSupplyThreshold ≤ p ∧ p < cfg.lowSupplyThreshold then some "low-supply"
  else none

/-! ## Helper lemmas -/

theorem ite_and_split {γ : Type} (a b : Bool) (x y : γ) :
    (if a && b then x else y) = if a then (if b then x else y) else y := by
  cases a <;> cases b <;> simp

/-- A JavaScript fallback chain followed by a final validity guard
computes the first valid candidate (or the default). -/
theorem jsChain_spec {β : Type} (valid : Option String → Bool) (f : Option String → β)
    (d : β) (hnone : valid none = false) :
    ∀ (alts : List (Option String)) (cur : Option String),
      (if valid (jsChain valid cur alts) then f (jsChain valid cur alts) else d)
        = (match specFirstValid valid (cur :: alts) with
            | some s => f (some s)
            | none => d) := by
  intro alts
  induction alts with
  | nil =>
    intro cur
    cases cur with
    | none => simp [jsChain, specFirstValid, hnone]
    | some s =>
      by_cases h : valid (some s) = true
      · simp [jsChain, specFirstValid, h]
      · simp [jsChain, specFirstValid, Bool.eq_false_iff.mpr h]
  | cons a rest ih =>
    intro cur
    have hstep : jsChain valid cur (a :: rest) = jsChain valid (jsChainStep valid cur a) rest := rfl
    rw [hstep, ih (jsChainStep valid cur a)]
    by_cases h : valid cur = true
    · simp [jsChainStep, specFirstValid, h]
    · simp [jsChainStep, specFirstValid, Bool.eq_false_iff.mpr h]

theorem aHas_aDel {α : Type} (m : List (String × α)) (k : String) :
    aHas (aDel m k) k = false := by
  rw [Bool.eq_false_iff]
  intro hcontra
  rcases List.any_eq_true.mp hcontra with ⟨x, hx, hk⟩
  have h2 := (List.mem_filter.mp hx).2
  rw [bne_iff_ne] at h2
  exact h2 (eq_of_beq hk)

theorem isInCooldown_of_not_has (cfg : AlertsConfig) (cds : List (String × Nat))
    (now : Nat) (key : String) (h : aHas cds key = false) :
    isInCooldown cfg cds now key = false := by
  simp [isInCooldown, h]

theorem takeLast_length_le {α : Type} (n : Nat) (l : List α) :
    (takeLast n l).length ≤ n := by
  simp only [takeLast, List.length_reverse, List.length_take]
  exact Nat.min_le_left _ _

theorem take_append_take {α : Type} (n : Nat) (as bs : List α) :
    (as ++ bs.take n).take n = (as ++ bs).take n := by
  rw [List.take_append_eq_append_take, List.take_append_eq_append_take,
    List.take_take, Nat.min_eq_left (Nat.sub_le n as.length)]

theorem takeLast_absorb {α : Type} (n : Nat) (xs ys : List α) :
    takeLast n (takeLast n xs ++ ys) = takeLast n (xs ++ ys) := by
  simp only [takeLast, List.reverse_append, List.reverse_reverse]
  rw [take_append_take]

theorem foldl_addAlert : ∀ (adds : List AlertEvent) (init : List AlertEvent),
    adds ≠ [] → adds.foldl addAlert init = takeLast 1000 (init ++ adds) := by
  intro adds
  induction adds with
  | nil => intro init h; exact absurd rfl h
  | cons a as ih =>
    intro init _
    show as.foldl addAlert (addAlert init a) = takeLast 1000 (init ++ a :: as)
    cases as with
    | nil =>
      simp [addAlert, saveAlertHistory]
    | cons b bs =>
      rw [ih (addAlert init a) (by simp)]
      show takeLast 1000 (saveAlertHistory (init ++ [a]) ++ (b :: bs)) = _
      rw [saveAlertHistory, takeLast_absorb]
      simp

/-! ## Concrete fixtures for the scenario claims -/

/-- The default alert configuration of the repository
(thresholds 10/20, 5 offline minutes, 4 cooldown hours). -/
def alertsStd : AlertsConfig :=
  { enabled := true, lowSupplyThreshold := 20, criticalSupplyThreshold := 10,
    offlineMinutes := 5, cooldownHours := 4, notifySchedule := "always",
    notifyTime := "", notifyEndTime := "", notifyDays := none }

def emailOff : EmailConfig :=
  { enabled := false, host := "", user := "", pass := "", recipients := [] }

def cfgStd : Config := { email := emailOff, webhooks := [], alerts := alertsStd }

/-- A clock at `n` milliseconds (weekday, midday). -/
def mkClock (n : Nat) : Clock :=
  { nowMs := n, iso := "iso-" ++ toString n, day := 2, hhmm := "12:00" }

/-- An online printer with a single black-toner supply at
`cur` out of 100. -/
def c2printer (cur : Int) : Printer :=
  { ip := "10.0.0.1", name := some "HP LaserJet", model := some "HP LaserJet",
    serial := none, status := "idle", totalPages := some 100,
    supplies := [{ name := "Black Toner", current := cur, max := 100, type := "toner" }],
    trays := [], errors := [], network := ⟨none, none, none⟩,
    lastUpdate := "iso-0", online := true }

def c2run1 : SysState := checkAlerts cfgStd (mkClock 0) [c2printer 25] SysState.empty
def c2run2 : SysState := checkAlerts cfgStd (mkClock 60000) [c2printer 15] c2run1
def c2run3 : SysState := checkAlerts cfgStd (mkClock 120000) [c2printer 8] c2run2
def c2run4 : SysState := checkAlerts cfgStd (mkClock 180000) [c2printer 8] c2run3
def c2run5 : SysState :=
  checkAlerts cfgStd (mkClock (120000 + 14400000)) [c2printer 8] c2run4

/-- An offline printer with no supplies. -/
def c3off : Printer :=
  { ip := "10.0.0.7", name := some "HP M404", model := some "HP M404",
    serial := none, status := "offline", totalPages := some 0,
    supplies := [], trays := [], errors := [], network := ⟨none, none, none⟩,
    lastUpdate := "2024-05-01T10:00:00Z", online := false }

def c3on : Printer := { c3off with online := true, status := "idle" }

/-- The first `k` one-minute evaluation rounds of a device that is
offline on rounds 0-11 and back online on round 12. -/
def c3run (k : Nat) : SysState :=
  (List.range k).foldl
    (fun st j => checkAlerts cfgStd (mkClock (60000 * j))
      [if j == 12 then c3on else c3off] st)
    SysState.empty

/-- A configuration with email, one enabled webhook, and the
business-hours notification schedule. -/
def c4cfg : Config :=
  { email := { enabled := true, host := "smtp.example.com",
               user := "alerts@example.com", pass := "secret",
               recipients := ["ops@example.com"] },
    webhooks := [{ enabled := true, url := "https://hooks.example.com/hook",
                   name := "teams" }],
    alerts := { alertsStd with notifySchedule := "business-hours" } }

/-- A Sunday midday clock (outside business hours). -/
def c4clock : Clock := { nowMs := 1000, iso := "sunday", day := 0, hhmm := "12:00" }

def c4res : SysState × Option AlertEvent :=
  triggerAlert c4cfg c4clock SysState.empty "offline" "10.0.0.3" "HP Color" none
    AlertDetails.none0

/-- A stored, not yet acknowledged critical-supply event. -/
def c6alert : AlertEvent :=
  { id := "5000", type := "critical-supply", printerIp := "10.0.0.2",
    printerName := "HP X", supplyName := some "Black Toner",
    subject := "s", message := "m", details := AlertDetails.none0,
    timestamp := "iso-5000", acknowledged := false,
    acknowledgedAt := none, acknowledgedBy := none }

/-- State after the event above fired at 5000 ms (its cooldown key is
active). -/
def c6st : SysState :=
  { cooldowns := [("10.0.0.2-critical-supply-Black Toner", 5000)],
    offlineTimestamps := [], storedAlerts := [c6alert],
    emailLog := [], webhookLog := [] }

def c6ack : AlertEvent :=
  { c6alert with acknowledged := true, acknowledgedAt := some "iso-6000",
                 acknowledgedBy := some "admin" }

def c6st2 : SysState := { c6st with storedAlerts := [c6ack], cooldowns := [] }

/-- A previously successfully polled device with supplies on record. -/
def c1prior : Printer :=
  { ip := "10.0.0.5", name := some "HP OfficeJet", model := some "HP OfficeJet",
    serial := some "SN123", status := "idle", totalPages := some 1200,
    supplies := [{ name := "Black Toner", current := 50, max := 100, type := "toner" }],
    trays := [], errors := [], network := ⟨none, none, none⟩,
    lastUpdate := "2024-05-01T10:00:00Z", online := true }

def c1map : List (String × Printer) := [("10.0.0.5", c1prior)]

/-- The registry after an auto-refresh round in which the device did
not answer the anchor query. -/
def c1refreshed : List (String × Printer) :=
  refreshDevice c1map "10.0.0.5" SnmpEnv.empty "2024-05-01T10:01:00Z"

/-- Equality of every snapshot field except the `lastUpdate`
timestamp. -/
def nonTransientEq (p q : Printer) : Prop :=
  p.ip = q.ip ∧ p.name = q.name ∧ p.model = q.model ∧ p.serial = q.serial
    ∧ p.status = q.status ∧ p.totalPages = q.totalPages
    ∧ p.supplies = q.supplies ∧ p.trays = q.trays ∧ p.errors = q.errors
    ∧ p.network = q.network ∧ p.online = q.online

/-- A reachable device whose primary status OID answers with a
non-numeric string while the fallback OID would answer `3`. -/
def c8env : SnmpEnv :=
  { SnmpEnv.empty with description := some "HP LaserJet 4000 series",
                       deviceStatus := some "ready", statusAlt1 := some "3" }

/-- A toner supply whose reported maximum capacity is zero. -/
def c5supply : Supply := { name := "Black Toner", current := 50, max := 0, type := "toner" }

/-! ## Claim theorems -/

/-- Claim C9: a scan-start request arriving while a scan is active is
answered with a 409 conflict, no new scan is started, and the
`scanning` flag and `lastScan` timestamp of the in-flight scan are
left untouched. -/
theorem scan_conflict_rejected (st : ScanStatus) (h : st.scanning = true) :
    postScan st = (st, 409) := by
  simp [postScan, h]

theorem scan_conflict_rejected_witness :
    postScan { scanning := true, lastScan := some "2024-05-01T10:00:00Z" }
      = ({ scanning := true, lastScan := some "2024-05-01T10:00:00Z" }, 409) :=
  scan_conflict_rejected { scanning := true, lastScan := some "2024-05-01T10:00:00Z" } rfl

/-- Claim C10: after any non-empty sequence of alert additions the
persisted alert history has at most 1000 entries and equals the most
recent 1000 of all alerts in insertion order (older entries are
silently discarded). -/
theorem alert_history_bounded (init adds : List AlertEvent) (h : adds ≠ []) :
    (adds.foldl addAlert init).length ≤ 1000
      ∧ adds.foldl addAlert init = takeLast 1000 (init ++ adds) := by
  refine ⟨?_, foldl_addAlert adds init h⟩
  rw [foldl_addAlert adds init h]
  exact takeLast_length_le _ _

theorem alert_history_bounded_witness :
    ([c6alert].foldl addAlert []).length ≤ 1000
      ∧ [c6alert].foldl addAlert [] = takeLast 1000 ([] ++ [c6alert]) :=
  alert_history_bounded [] [c6alert] (by simp)

/-- Claim C1 counterexample: a device that had supplies on record and
then fails the anchor query gets a snapshot with `online = false` and
`status = "offline"` whose supplies are cleared to `[]` (and whose
page counter resets), contradicting the claimed retention of stale
data from the previous snapshot. -/
theorem offline_poll_clears_stale_data :
    (aFind c1refreshed "10.0.0.5").map Printer.online = some false
    ∧ (aFind c1refreshed "10.0.0.5").map Printer.status = some "offline"
    ∧ (aFind c1refreshed "10.0.0.5").map Printer.supplies = some []
    ∧ c1prior.supplies ≠ []
    ∧ (aFind c1refreshed "10.0.0.5").map Printer.supplies ≠ some c1prior.supplies
    ∧ (aFind c1refreshed "10.0.0.5").map Printer.totalPages ≠ some c1prior.totalPages := by
  decide

/-- Claim C1 (amended): a poll whose anchor query yields no value
produces a snapshot with `online = false`, `status = "offline"` and
every other field reset to the fresh defaults (empty supplies, trays
and errors, null identity, zero page count) — the previous snapshot is
replaced, not preserved; two such polls agree on every field except
the `lastUpdate` timestamp. -/
theorem unreachable_poll_resets_snapshot (env1 env2 : SnmpEnv) (ip iso1 iso2 : String)
    (h1 : jsTruthyOpt env1.description = false)
    (h2 : jsTruthyOpt env2.description = false) :
    (queryPrinter env1 ip iso1).online = false
    ∧ (queryPrinter env1 ip iso1).status = "offline"
    ∧ (queryPrinter env1 ip iso1).supplies = []
    ∧ (queryPrinter env1 ip iso1).trays = []
    ∧ (queryPrinter env1 ip iso1).errors = []
    ∧ (queryPrinter env1 ip iso1).name = none
    ∧ (queryPrinter env1 ip iso1).totalPages = some 0
    ∧ nonTransientEq (queryPrinter env1 ip iso1) (queryPrinter env2 ip iso2) := by
  simp [queryPrinter, h1, h2, initialPrinterData, nonTransientEq]

theorem unreachable_poll_resets_snapshot_witness :
    (queryPrinter SnmpEnv.empty "10.0.0.5" "t1").online = false
    ∧ (queryPrinter SnmpEnv.empty "10.0.0.5" "t1").status = "offline"
    ∧ (queryPrinter SnmpEnv.empty "10.0.0.5" "t1").supplies = []
    ∧ (queryPrinter SnmpEnv.empty "10.0.0.5" "t1").trays = []
    ∧ (queryPrinter SnmpEnv.empty "10.0.0.5" "t1").errors = []
    ∧ (queryPrinter SnmpEnv.empty "10.0.0.5" "t1").name = none
    ∧ (queryPrinter SnmpEnv.empty "10.0.0.5" "t1").totalPages = some 0
    ∧ nonTransientEq (queryPrinter SnmpEnv.empty "10.0.0.5" "t1")
        (queryPrinter SnmpEnv.empty "10.0.0.5" "t2") :=
  unreachable_poll_resets_snapshot SnmpEnv.empty SnmpEnv.empty "10.0.0.5" "t1" "t2" rfl rfl

/-- Claim C3: a device observed offline from minute 0 through minute
11 (threshold 5 minutes) and back online at minute 12 fires exactly
one `offline` alert, at the 5-minute mark (later rounds are suppressed
by the cooldown and the timer is not reset), and exactly one
`back-online` alert at recovery carrying the computed 12-minute
downtime, after which the offline timer is deleted — and the
`back-online` alert fires although the `offline` cooldown key is still
active at that moment. -/
theorem offline_recovery_alert_sequence :
    (c3run 5).storedAlerts = []
    ∧ (c3run 6).storedAlerts.map (fun a => a.type) = ["offline"]
    ∧ (c3run 12).storedAlerts.map (fun a => a.type) = ["offline"]
    ∧ (c3run 12).offlineTimestamps = [("10.0.0.7", 0)]
    ∧ isInCooldown cfgStd.alerts (c3run 12).cooldowns 720000 "10.0.0.7-offline" = true
    ∧ (c3run 13).storedAlerts.map (fun a => (a.type, a.details.downtime))
        = [("offline", none), ("back-online", some "12 minutes")]
    ∧ (c3run 13).offlineTimestamps = [] := by
  decide

/-- Claim C5 counterexample: for a toner supply with `max = 0` the
code computes the guarded percentage `100` (so no alert fires), while
the claim states the guard is `0` (which would fire critical-supply).
-/
theorem supply_guard_is_100_not_0 :
    supplyPercentage c5supply = 100
    ∧ supplyAlertKind alertsStd c5supply = none
    ∧ specSupplyAlertStated alertsStd c5supply = some "critical-supply"
    ∧ supplyAlertKind alertsStd c5supply ≠ specSupplyAlertStated alertsStd c5supply := by
  decide

/-- Claim C4 counterexample: with a business-hours schedule on a
Sunday, the schedule gate is closed and the email transport is not
reached, yet the webhook dispatch is still attempted (and the event is
still recorded) — webhook dispatch is not gated by the notification
schedule. -/
theorem webhook_not_schedule_gated :
    isWithinNotificationSchedule c4cfg.alerts c4clock = false
    ∧ c4res.1.webhookLog = [("teams", "Offline: HP Color", "offline")]
    ∧ c4res.1.emailLog = []
    ∧ (c4res.2).isSome = true
    ∧ c4res.1.storedAlerts.map (fun a => a.type) = ["offline"] := by
  decide

/-- Claim C2: a trigger whose cooldown key fired less than the
cooldown duration ago is suppressed entirely (no event stored, no
email or webhook dispatch, state unchanged); otherwise the event is
created and the key timestamp is set to now.  The 25-15-8 percent
toner drop under thresholds critical 10 / low 20 and a 4-hour
cooldown fires `low-supply` once and `critical-supply` once, nothing
further within the window, and fires again once the cooldown has
elapsed. -/
theorem cooldown_suppression :
    (∀ (cfg : AlertsConfig) (cds : List (String × Nat)) (now : Nat) (key : String),
        isInCooldown cfg cds now key = true
          ↔ aHas cds key = true ∧ now - aGetD cds key 0 < cooldownMsOf cfg)
    ∧ (∀ (cfg : Config) (clock : Clock) (st : SysState) (ty ip nm : String)
        (sup : Option String) (det : AlertDetails),
        isInCooldown cfg.alerts st.cooldowns clock.nowMs (cooldownKey ip ty sup) = true →
          triggerAlert cfg clock st ty ip nm sup det = (st, none))
    ∧ (∀ (cfg : Config) (clock : Clock) (st : SysState) (ty ip nm : String)
        (sup : Option String) (det : AlertDetails),
        isInCooldown cfg.alerts st.cooldowns clock.nowMs (cooldownKey ip ty sup) = false →
          ∃ ev, (triggerAlert cfg clock st ty ip nm sup det).2 = some ev
            ∧ (triggerAlert cfg clock st ty ip nm sup det).1.storedAlerts
                = addAlert st.storedAlerts ev
            ∧ (triggerAlert cfg clock st ty ip nm sup det).1.cooldowns
                = aSet st.cooldowns (cooldownKey ip ty sup) clock.nowMs)
    ∧ c2run1.storedAlerts = []
    ∧ c2run4.storedAlerts.map (fun a => (a.type, a.supplyName, a.details.percentage))
        = [("low-supply", some "Black Toner", some 15),
           ("critical-supply", some "Black Toner", some 8)]
    ∧ c2run5.storedAlerts.map (fun a => a.type)
        = ["low-supply", "critical-supply", "critical-supply"] := by
  refine ⟨?_, ?_, ?_, by decide, by decide, by decide⟩
  · intro cfg cds now key
    by_cases h : aHas cds key <;> simp [isInCooldown, h]
  · intro cfg clock st ty ip nm sup det h
    simp [triggerAlert, h]
  · intro cfg clock st ty ip nm sup det h
    refine ⟨mkAlertEvent clock ty ip nm sup det, ?_, ?_, ?_⟩ <;> simp [triggerAlert, h]

theorem cooldown_suppression_witness :
    triggerAlert cfgStd (mkClock 1000)
        { SysState.empty with cooldowns := [("10.0.0.1-low-supply-Black Toner", 0)] }
        "low-supply" "10.0.0.1" "HP LaserJet" (some "Black Toner") AlertDetails.none0
      = ({ SysState.empty with cooldowns := [("10.0.0.1-low-supply-Black Toner", 0)] }, none) :=
  cooldown_suppression.2.1 cfgStd (mkClock 1000)
    { SysState.empty with cooldowns := [("10.0.0.1-low-supply-Black Toner", 0)] }
    "low-supply" "10.0.0.1" "HP LaserJet" (some "Black Toner") AlertDetails.none0
    (by decide)

/-- Claim C4 (amended): email dispatch is gated by the notification
schedule policy (`always`, `business-hours`, `scheduled`), but
webhook dispatch is not: outside the schedule the email transport is
not reached while every enabled webhook is still posted to, and the
alert event is recorded to history in either case. -/
theorem notification_schedule_gating
    (cfg : Config) (clock : Clock) (st : SysState) (ty ip nm : String)
    (sup : Option String) (det : AlertDetails)
    (hty : (ty == "report") = false)
    (hsch : isWithinNotificationSchedule cfg.alerts clock = false)
    (hcd : isInCooldown cfg.alerts st.cooldowns clock.nowMs (cooldownKey ip ty sup) = false) :
    sendEmailNotificationAttempt cfg clock ty = false
    ∧ (triggerAlert cfg clock st ty ip nm sup det).1.emailLog = st.emailLog
    ∧ (∃ ev, (triggerAlert cfg clock st ty ip nm sup det).2 = some ev
        ∧ (triggerAlert cfg clock st ty ip nm sup det).1.storedAlerts
            = addAlert st.storedAlerts ev)
    ∧ (cfg.alerts.enabled = true →
        (triggerAlert cfg clock st ty ip nm sup det).1.webhookLog
          = st.webhookLog ++ (sendWebhookTargets cfg).map
              (fun wh => (wh.name, (alertText ty ip nm sup det).1, ty))) := by
  have hemail : sendEmailNotificationAttempt cfg clock ty = false := by
    simp [sendEmailNotificationAttempt, hty, hsch]
  refine ⟨hemail, ?_, ?_, ?_⟩
  · simp [triggerAlert, hcd, hemail]
  · exact ⟨mkAlertEvent clock ty ip nm sup det,
      by simp [triggerAlert, hcd], by simp [triggerAlert, hcd]⟩
  · intro hen
    simp [triggerAlert, hcd, hen]

theorem notification_schedule_gating_witness :
    sendEmailNotificationAttempt c4cfg c4clock "offline" = false
    ∧ (triggerAlert c4cfg c4clock SysState.empty "offline" "10.0.0.3" "HP Color" none
        AlertDetails.none0).1.emailLog = SysState.empty.emailLog
    ∧ (∃ ev, (triggerAlert c4cfg c4clock SysState.empty "offline" "10.0.0.3" "HP Color" none
        AlertDetails.none0).2 = some ev
        ∧ (triggerAlert c4cfg c4clock SysState.empty "offline" "10.0.0.3" "HP Color" none
            AlertDetails.none0).1.storedAlerts
              = addAlert SysState.empty.storedAlerts ev)
    ∧ (c4cfg.alerts.enabled = true →
        (triggerAlert c4cfg c4clock SysState.empty "offline" "10.0.0.3" "HP Color" none
          AlertDetails.none0).1.webhookLog
          = SysState.empty.webhookLog ++ (sendWebhookTargets c4cfg).map
              (fun wh => (wh.name,
                (alertText "offline" "10.0.0.3" "HP Color" none AlertDetails.none0).1,
                "offline"))) :=
  notification_schedule_gating c4cfg c4clock SysState.empty "offline" "10.0.0.3" "HP Color"
    none AlertDetails.none0 (by decide) (by decide) (by decide)

/-- Claim C5 (amended): the supply-threshold evaluation of
`checkAlerts` agrees everywhere with the claim wording once the
guarded percentage for `max ≤ 0` is corrected from `0` to `100`:
only supplies whose lowercased name contains `toner` or `ink` and not
`drum` or `fuser` are evaluated, the percentage is
`round(current/max*100)` (guarded to `100` when `max ≤ 0`), a
percentage in `[0, critical)` fires `critical-supply`, one in
`[critical, low)` fires `low-supply`, and otherwise nothing fires. -/
theorem supply_threshold_evaluation (cfg : AlertsConfig) (s : Supply) :
    supplyAlertKind cfg s = specSupplyAlertAmended cfg s := by
  have hXY : (if s.max > 0 then jsRoundDiv (100 * s.current) s.max else (100 : Int))
      = (if s.max ≤ 0 then (100 : Int) else jsRoundDiv (100 * s.current) s.max) := by
    rcases le_or_lt s.max 0 with h | h
    · rw [if_neg (by omega), if_pos h]
    · rw [if_pos h, if_neg (by omega)]
  simp only [supplyAlertKind, specSupplyAlertAmended, supplyPercentage, hXY]
  by_cases hA : strIncludes (strToLower s.name) "toner" <;>
    by_cases hB : strIncludes (strToLower s.name) "ink" <;>
      by_cases hC : strIncludes (strToLower s.name) "drum" <;>
        by_cases hD : strIncludes (strToLower s.name) "fuser" <;>
          simp [hA, hB, hC, hD, ge_iff_le]

/-- Claim C6: acknowledging an alert event deletes the cooldown entry
keyed by that event (address, type, optional supply name), so a
subsequent trigger of the same condition for the same device and
supply creates a new event immediately, at any later instant, without
waiting for the original cooldown window. -/
theorem acknowledge_clears_cooldown
    (cfg : Config) (st : SysState) (alertId user iso : String)
    (a : AlertEvent) (st2 : SysState)
    (h : postAcknowledge st alertId user iso = (st2, some a)) :
    aHas st2.cooldowns (cooldownKey a.printerIp a.type a.supplyName) = false
    ∧ ∀ (clock : Clock) (nm : String) (det : AlertDetails),
        ((triggerAlert cfg clock st2 a.type a.printerIp nm a.supplyName det).2).isSome
          = true := by
  unfold postAcknowledge at h
  cases hack : acknowledgeAlert st.storedAlerts alertId user iso with
  | mk found stored1 =>
    rw [hack] at h
    cases found with
    | none => simp at h
    | some a1 =>
      simp only at h
      injection h with h1 h2
      injection h2 with h3
      subst h3
      subst h1
      constructor
      · exact aHas_aDel _ _
      · intro clock nm det
        have hno : isInCooldown cfg.alerts
            (aDel st.cooldowns (cooldownKey a1.printerIp a1.type a1.supplyName))
            clock.nowMs (cooldownKey a1.printerIp a1.type a1.supplyName) = false :=
          isInCooldown_of_not_has _ _ _ _ (aHas_aDel _ _)
        simp [triggerAlert, hno]

theorem acknowledge_clears_cooldown_witness :
    aHas c6st2.cooldowns (cooldownKey "10.0.0.2" "critical-supply" (some "Black Toner"))
        = false
    ∧ ((triggerAlert cfgStd (mkClock 6000) c6st2 "critical-supply" "10.0.0.2" "HP X"
        (some "Black Toner") AlertDetails.none0).2).isSome = true := by
  have h := acknowledge_clears_cooldown cfgStd c6st "5000" "admin" "iso-6000" c6ack c6st2
    (by decide)
  exact ⟨h.1, h.2 (mkClock 6000) "HP X" AlertDetails.none0⟩

/-- Claim C8 counterexample: with a reachable device whose primary
status OID answers the non-numeric string `ready` and whose fallback
status OID answers `3`, the claimed resolution (fall through on any
syntactically invalid response) would yield `idle`, but the code only
falls through on missing or empty responses and leaves the status at
`unknown`. -/
theorem status_chain_no_numeric_fallthrough :
    (queryPrinter c8env "10.0.0.9" "t0").status = "unknown"
    ∧ specStatusFieldClaim c8env = "idle"
    ∧ (queryPrinter c8env "10.0.0.9" "t0").status ≠ specStatusFieldClaim c8env := by
  decide

/-- Claim C8 (amended): the serial chain returns the first non-empty
response and the page-count chain parses the first response that is
non-empty and numeric, any of them absent yielding the default
(serial null, pages 0) without an error; the status chain however
falls through only on missing or empty responses — its first
non-empty response is final, and if that response is not numeric the
field keeps its default `unknown` even when a later candidate would
be valid. -/
theorem oid_chain_resolution :
    (∀ env : SnmpEnv, serialFieldOf env
        = specResolveString [env.serial, env.serialAlt1, env.serialAlt2])
    ∧ (∀ env : SnmpEnv, totalPagesFieldOf env
        = (match specFirstValid pageValid
              [env.totalPages, env.totalPagesAlt1, env.totalPagesAlt2, env.totalPagesAlt3,
               env.totalPagesAlt4, env.totalPagesAlt5, env.totalPagesAlt6] with
            | some s => jsParseInt s
            | none => some 0))
    ∧ (∀ env : SnmpEnv, statusFieldOf env
        = (match specResolveString [env.deviceStatus, env.statusAlt1] with
            | some s =>
                if jsIsNumeric s then (DEVICE_STATUS (jsParseInt s)).getD "unknown"
                else "unknown"
            | none => "unknown")) := by
  refine ⟨?_, ?_, ?_⟩
  · intro env
    unfold serialFieldOf specResolveString
    rw [jsChain_spec jsTruthyOpt (fun v => v) (none : Option String) rfl
      [env.serialAlt1, env.serialAlt2] env.serial]
    cases specFirstValid jsTruthyOpt [env.serial, env.serialAlt1, env.serialAlt2] <;> rfl
  · intro env
    unfold totalPagesFieldOf
    rw [jsChain_spec pageValid (fun v => jsParseInt (v.getD "")) (some 0) rfl
      [env.totalPagesAlt1, env.totalPagesAlt2, env.totalPagesAlt3,
       env.totalPagesAlt4, env.totalPagesAlt5, env.totalPagesAlt6] env.totalPages]
    cases specFirstValid pageValid
      [env.totalPages, env.totalPagesAlt1, env.totalPagesAlt2, env.totalPagesAlt3,
       env.totalPagesAlt4, env.totalPagesAlt5, env.totalPagesAlt6] <;> rfl
  · intro env
    unfold statusFieldOf specResolveString
    rw [ite_and_split]
    rw [jsChain_spec jsTruthyOpt
      (fun v => if jsIsNumeric (v.getD "")
        then (DEVICE_STATUS (jsParseInt (v.getD ""))).getD "unknown" else "unknown")
      "unknown" rfl [env.statusAlt1] env.deviceStatus]
    cases specFirstValid jsTruthyOpt [env.deviceStatus, env.statusAlt1] <;> rfl

/-- Claim C7: a supply-table row whose trimmed name is shorter than 3
characters or all digits, whose max or current value does not parse,
or whose max is not positive, is dropped and never stored; rows are
classified by case-insensitive substring in priority order
toner/ink/cartridge (rerouted to waste on a `waste` substring), drum,
fuser/fixing, belt/transfer, maintenance/kit, and a row matching none
of these classifies as `other` and is dropped; every supply of a
snapshot comes from some index of the zipped walks through this row
processing. -/
theorem supply_row_filtering :
    (∀ n m c : String, (strTrim n).length < 3 → supplyRow n m c = none)
    ∧ (∀ n m c : String, isAllDigits (strTrim n) = true → supplyRow n m c = none)
    ∧ (∀ n m c : String, jsParseInt m = none → supplyRow n m c = none)
    ∧ (∀ n m c : String, jsParseInt c = none → supplyRow n m c = none)
    ∧ (∀ (n m c : String) (v : Int), jsParseInt m = some v → v ≤ 0 →
        supplyRow n m c = none)
    ∧ (∀ n m c : String, classifySupplyType (strTrim (strToLower n)) = "other" →
        supplyRow n m c = none)
    ∧ (∀ (n m c : String) (s : Supply), supplyRow n m c = some s →
        s.name = strTrim n ∧ jsParseInt m = some s.max ∧ jsParseInt c = some s.current
          ∧ s.max > 0 ∧ s.type = classifySupplyType (strTrim (strToLower n))
          ∧ s.type ≠ "other")
    ∧ (∀ nl : String,
        (strIncludes nl "toner" || strIncludes nl "ink" || strIncludes nl "cartridge") = true →
        classifySupplyType nl = (if strIncludes nl "waste" then "waste" else "toner"))
    ∧ (∀ nl : String,
        (strIncludes nl "toner" || strIncludes nl "ink" || strIncludes nl "cartridge") = false →
        strIncludes nl "drum" = true → classifySupplyType nl = "drum")
    ∧ (∀ nl : String,
        (strIncludes nl "toner" || strIncludes nl "ink" || strIncludes nl "cartridge") = false →
        strIncludes nl "drum" = false →
        (strIncludes nl "fuser" || strIncludes nl "fixing") = true →
        classifySupplyType nl = "fuser")
    ∧ (∀ nl : String,
        (strIncludes nl "toner" || strIncludes nl "ink" || strIncludes nl "cartridge") = false →
        strIncludes nl "drum" = false →
        (strIncludes nl "fuser" || strIncludes nl "fixing") = false →
        (strIncludes nl "belt" || strIncludes nl "transfer") = true →
        classifySupplyType nl = "transfer")
    ∧ (∀ nl : String,
        (strIncludes nl "toner" || strIncludes nl "ink" || strIncludes nl "cartridge") = false →
        strIncludes nl "drum" = false →
        (strIncludes nl "fuser" || strIncludes nl "fixing") = false →
        (strIncludes nl "belt" || strIncludes nl "transfer") = false →
        (strIncludes nl "maintenance" || strIncludes nl "kit") = true →
        classifySupplyType nl = "maintenance")
    ∧ (∀ nl : String,
        (strIncludes nl "toner" || strIncludes nl "ink" || strIncludes nl "cartridge") = false →
        strIncludes nl "drum" = false →
        (strIncludes nl "fuser" || strIncludes nl "fixing") = false →
        (strIncludes nl "belt" || strIncludes nl "transfer") = false →
        (strIncludes nl "maintenance" || strIncludes nl "kit") = false →
        classifySupplyType nl = "other")
    ∧ (∀ (env : SnmpEnv) (ip iso : String) (s : Supply),
        s ∈ (queryPrinter env ip iso).supplies →
          ∃ i, i < env.supplyNames.length ∧ i < env.supplyMax.length
            ∧ i < env.supplyCurrent.length
            ∧ supplyRow (env.supplyNames.getD i "") (env.supplyMax.getD i "")
                (env.supplyCurrent.getD i "") = some s) := by
  refine ⟨?_, ?_, ?_, ?_, ?_, ?_, ?_, ?_, ?_, ?_, ?_, ?_, ?_, ?_⟩
  · intro n m c h
    simp only [supplyRow]
    cases hm : jsParseInt m with
    | none => rfl
    | some v =>
      cases hc : jsParseInt c with
      | none => rfl
      | some w => simp [h]
  · intro n m c h
    simp only [supplyRow]
    cases hm : jsParseInt m with
    | none => rfl
    | some v =>
      cases hc : jsParseInt c with
      | none => rfl
      | some w => simp [h]
  · intro n m c h
    simp only [supplyRow]
    rw [h]
  · intro n m c h
    simp only [supplyRow]
    rw [h]
    cases hm : jsParseInt m with
    | none => rfl
    | some v => rfl
  · intro n m c v hm hv
    simp only [supplyRow]
    rw [hm]
    cases hc : jsParseInt c with
    | none => rfl
    | some w =>
      have hnotpos : ¬ ((0 : Int) < v) := by omega
      simp [hnotpos]
  · intro n m c h
    simp only [supplyRow]
    cases hm : jsParseInt m with
    | none => rfl
    | some v =>
      cases hc : jsParseInt c with
      | none => rfl
      | some w => simp [h]
  · intro n m c s h
    simp only [supplyRow] at h
    cases hm : jsParseInt m with
    | none => rw [hm] at h; simp at h
    | some v =>
      cases hc : jsParseInt c with
      | none => rw [hm, hc] at h; simp at h
      | some w =>
        rw [hm, hc] at h
        dsimp only at h
        split_ifs at h with h1 h2 h3
        injection h with h4
        subst h4
        refine ⟨rfl, rfl, rfl, ?_, rfl, ?_⟩
        · simp only [Bool.and_eq_true, decide_eq_true_eq] at h1
          exact h1.1
        · intro hcontra
          dsimp only at hcontra
          rw [hcontra] at h3
          simp at h3
  · intro nl h
    simp [classifySupplyType, h]
  · intro nl h1 h2
    simp [classifySupplyType, h1, h2]
  · intro nl h1 h2 h3
    simp [classifySupplyType, h1, h2, h3]
  · intro nl h1 h2 h3 h4
    simp [classifySupplyType, h1, h2, h3, h4]
  · intro nl h1 h2 h3 h4 h5
    simp [classifySupplyType, h1, h2, h3, h4, h5]
  · intro nl h1 h2 h3 h4 h5
    simp [classifySupplyType, h1, h2, h3, h4, h5]
  · intro env ip iso s hs
    by_cases hd : jsTruthyOpt env.description = true
    · simp only [queryPrinter] at hs
      rw [if_pos hd] at hs
      simp only [suppliesOf] at hs
      rcases List.mem_filterMap.mp hs with ⟨i, hiR, hif⟩
      have hi := List.mem_range.mp hiR
      by_cases hb : (i < env.supplyMax.length && i < env.supplyCurrent.length) = true
      · rw [if_pos hb] at hif
        simp only [Bool.and_eq_true, decide_eq_true_eq] at hb
        exact ⟨i, hi, hb.1, hb.2, hif⟩
      · rw [if_neg hb] at hif
        exact absurd hif (by simp)
    · simp only [queryPrinter] at hs
      rw [if_neg hd] at hs
      simp [initialPrinterData] at hs

theorem supply_row_filtering_witness :
    supplyRow "OK" "100" "50" = none
    ∧ supplyRow "123" "100" "50" = none
    ∧ supplyRow "Black Toner" "junk" "50" = none
    ∧ supplyRow "Black Toner" "100" "junk" = none
    ∧ supplyRow "Black Toner" "0" "50" = none
    ∧ supplyRow "Mystery Part" "100" "50" = none
    ∧ classifySupplyType "waste toner box" = "waste"
    ∧ classifySupplyType "imaging drum" = "drum" := by
  have H := supply_row_filtering
  exact ⟨H.1 "OK" "100" "50" (by decide),
    H.2.1 "123" "100" "50" (by decide),
    H.2.2.1 "Black Toner" "junk" "50" (by decide),
    H.2.2.2.1 "Black Toner" "100" "junk" (by decide),
    H.2.2.2.2.1 "Black Toner" "0" "50" 0 (by decide) (by decide),
    H.2.2.2.2.2.1 "Mystery Part" "100" "50" (by decide),
    H.2.2.2.2.2.2.2.1 "waste toner box" (by decide),
    H.2.2.2.2.2.2.2.2.1 "imaging drum" (by decide) (by decide)⟩
